import Mathlib

/-!
Verification of the CUTTEL video-stitcher core (`src/cuttel.py`): the
crossfade filter-graph builder, the encoder-argument planner, the ffprobe
duration policy, and the encode supervisor's progress parsing and
cancellation logic.  Python floats are modelled as rationals (`ℚ`),
Python exceptions as `Except`/`Option`, the progress/cancellation
interleaving as a serialized event trace.
-/

namespace Cuttel

/-- The whitespace characters Python `str.strip()` removes (the ASCII
ones the progress stream can carry). -/
def isWs (c : Char) : Bool :=
  c = ' ' || c = '\t' || c = '\n' || c = '\r' || c = '\x0b' || c = '\x0c'

/-- Leading-whitespace removal on a character list. -/
def dropWs : List Char → List Char
  | [] => []
  | c :: cs => if isWs c then dropWs cs else c :: cs

/-- Model of Python `str.strip()` on the characters of a string. -/
def pyStrip (cs : List Char) : List Char :=
  (dropWs (dropWs cs).reverse).reverse

/-- Model of Python `sep in s` plus `s.split(sep, 1)`: the part before
the first occurrence of `sep`, and the rest when `sep` occurs at all. -/
def splitFirst (sep : Char) : List Char → List Char × Option (List Char)
  | [] => ([], none)
  | c :: cs =>
    if c = sep then ([], some cs)
    else
      let r := splitFirst sep cs
      (c :: r.1, r.2)

/-- Model of Python `s.split(sep)` with a single-character separator. -/
def splitSep (sep : Char) : List Char → List (List Char)
  | [] => [[]]
  | c :: cs =>
    let r := splitSep sep cs
    if c = sep then [] :: r
    else (c :: r.headD []) :: r.tail

/-- Decimal digits folded into a natural number (most significant first). -/
def digitsToNat (cs : List Char) : ℕ :=
  cs.foldl (fun a c => a * 10 + (c.toNat - 48)) 0

/-- Model of Python `float(s)` on the plain decimal literals this program
meets: optional surrounding whitespace, optional sign, then `digits`,
`digits.digits`, `.digits` or `digits.`.  Exponents and special values
are outside the inputs the progress/probe channels carry. -/
def pyFloat? (s : List Char) : Option ℚ :=
  let cs := pyStrip s
  let signed : ℚ × List Char :=
    match cs with
    | '-' :: rest => (-1, rest)
    | '+' :: rest => (1, rest)
    | _ => (1, cs)
  let ip := signed.2.takeWhile Char.isDigit
  let rest := signed.2.dropWhile Char.isDigit
  match rest with
  | [] => if ip.isEmpty then none else some (signed.1 * digitsToNat ip)
  | '.' :: fp =>
    if fp.all Char.isDigit && !(ip.isEmpty && fp.isEmpty) then
      some (signed.1 * ((digitsToNat ip : ℚ) + (digitsToNat fp : ℚ) / (10 : ℚ) ^ fp.length))
    else none
  | _ => none

/-- Model of Python `int(s)`: optional surrounding whitespace, optional
sign, then a nonempty run of digits. -/
def pyInt? (s : List Char) : Option ℤ :=
  let cs := pyStrip s
  let signed : ℤ × List Char :=
    match cs with
    | '-' :: rest => (-1, rest)
    | '+' :: rest => (1, rest)
    | _ => (1, cs)
  if !signed.2.isEmpty && signed.2.all Char.isDigit then
    some (signed.1 * digitsToNat signed.2)
  else none

/-- The crossfade offset computed at fold step `k` inside
`build_filter_graph` (`src/cuttel.py` lines 181-185):
`timeline_len = sum(durations[:k+1]) - k*tdur`, `offset = timeline_len -
tdur`, clamped at zero. -/
def fold_offset (durations : List ℚ) (tdur : ℚ) (k : ℕ) : ℚ :=
  let timeline_len := (durations.take (k + 1)).sum - (k : ℚ) * tdur
  let off := timeline_len - tdur
  if off < 0 then 0 else off

/-- The total output duration computed in `App.start`
(`src/cuttel.py` lines 1040-1044):
`sum(durations) - max(0, n-1) * tdur`, clamped at zero. -/
def out_total (durations : List ℚ) (tdur : ℚ) : ℚ :=
  let n : ℤ := durations.length
  let t := durations.sum - ((max 0 (n - 1) : ℤ) : ℚ) * tdur
  if t < 0 then 0 else t

theorem ite_clamp_eq_max (x : ℚ) : (if x < 0 then (0 : ℚ) else x) = max 0 x := by
  rcases lt_or_le x 0 with h | h
  · simp [h, max_eq_left h.le]
  · simp [not_lt.mpr h, max_eq_right h]

theorem fold_offset_eq_max (durations : List ℚ) (tdur : ℚ) (k : ℕ) :
    fold_offset durations tdur k
      = max 0 ((durations.take (k + 1)).sum - (k : ℚ) * tdur - tdur) := by
  unfold fold_offset
  exact ite_clamp_eq_max _

/-- C1: the graph builder computes the k-th crossfade offset as
`offset(k) = max(0, L(k) - t)` with `L(k) = d_0 + ... + d_k - k*t`; for
durations `[4, 5, 6]` and `t = 1` the fold offsets are `3` and `7`. -/
theorem C1_fold_offset (durations : List ℚ) (tdur : ℚ) (k : ℕ)
    (h : k + 2 ≤ durations.length) :
    fold_offset durations tdur k
      = max 0 ((durations.take (k + 1)).sum - (k : ℚ) * tdur - tdur)
    ∧ fold_offset [4, 5, 6] 1 0 = 3 ∧ fold_offset [4, 5, 6] 1 1 = 7 := by
  refine ⟨fold_offset_eq_max durations tdur k, ?_, ?_⟩ <;>
    norm_num [fold_offset, List.take_succ_cons, List.take_zero]

/-- Witness for C1 at `durations = [4, 5, 6]`, `t = 1`, `k = 0`. -/
theorem C1_fold_offset_witness :
    fold_offset [4, 5, 6] 1 0
      = max 0 ((([4, 5, 6] : List ℚ).take 1).sum - (0 : ℚ) * 1 - 1)
    ∧ fold_offset [4, 5, 6] 1 0 = 3 ∧ fold_offset [4, 5, 6] 1 1 = 7 := by
  have h := C1_fold_offset [4, 5, 6] 1 0 (by norm_num)
  exact ⟨h.1, h.2⟩

/-- C2: the total output duration equals `sum - (n-1)*t` clamped below at
zero, and is invariant under any permutation of the clip durations. -/
theorem C2_out_total (durations durations' : List ℚ) (tdur : ℚ)
    (h1 : 1 ≤ durations.length) (hp : durations.Perm durations') :
    out_total durations tdur
      = max 0 (durations.sum - ((durations.length : ℚ) - 1) * tdur)
    ∧ out_total durations' tdur = out_total durations tdur := by
  constructor
  · simp only [out_total]
    have hn : (0 : ℤ) ≤ (durations.length : ℤ) - 1 := by
      have : (1 : ℤ) ≤ (durations.length : ℤ) := by exact_mod_cast h1
      omega
    rw [max_eq_right hn, ite_clamp_eq_max]
    push_cast
    ring_nf
  · simp only [out_total]
    rw [← hp.sum_eq, ← hp.length_eq]

/-- Witness for C2 at `[4, 5, 6]` permuted to `[5, 4, 6]`, `t = 1`. -/
theorem C2_out_total_witness :
    out_total [4, 5, 6] 1 = 13 ∧ out_total [5, 4, 6] 1 = out_total [4, 5, 6] 1 := by
  have h := C2_out_total [4, 5, 6] [5, 4, 6] 1 (by norm_num)
    (List.Perm.swap 5 4 [6])
  refine ⟨?_, h.2⟩
  rw [h.1]
  norm_num

/-- C8 counterexample: with durations `[10, 1/2, 1/2]` and transition
duration `1` (inside `(0, 5]`), the fold offsets are `9` then `17/2`, a
strictly decreasing pair, refuting the claimed non-decreasing sequence. -/
theorem C8_cex :
    fold_offset [10, 1/2, 1/2] 1 1 < fold_offset [10, 1/2, 1/2] 1 0 := by
  norm_num [fold_offset, List.take_succ_cons, List.take_zero]

/-- C8 amended: every fold offset is nonnegative, and the offset sequence
is non-decreasing at step `k` provided clip `k+1` is at least as long as
the transition duration (without that proviso it can decrease). -/
theorem C8_offsets (durations : List ℚ) (tdur : ℚ) (k : ℕ)
    (hk : k + 1 < durations.length) (hd : tdur ≤ durations.getD (k + 1) 0) :
    0 ≤ fold_offset durations tdur k
    ∧ fold_offset durations tdur k ≤ fold_offset durations tdur (k + 1) := by
  rw [fold_offset_eq_max, fold_offset_eq_max]
  refine ⟨le_max_left _ _, max_le_max le_rfl ?_⟩
  have hsum : (durations.take (k + 1 + 1)).sum
      = (durations.take (k + 1)).sum + durations[k + 1] :=
    List.sum_take_succ durations (k + 1) hk
  have hget : durations.getD (k + 1) 0 = durations[k + 1] :=
    List.getD_eq_getElem durations 0 hk
  rw [hget] at hd
  push_cast
  linarith [hsum, hd]

/-- Witness for C8 amended at `[4, 5, 6]`, `t = 1`, `k = 0`. -/
theorem C8_offsets_witness :
    0 ≤ fold_offset [4, 5, 6] 1 0
    ∧ fold_offset [4, 5, 6] 1 0 ≤ fold_offset [4, 5, 6] 1 1 :=
  C8_offsets [4, 5, 6] 1 0 (by norm_num) (by norm_num [List.getD])

/-- The nine UI speed presets (`PRESETS` in `src/cuttel.py`). -/
def PRESETS : List String :=
  ["ultrafast", "superfast", "veryfast", "faster", "fast",
   "medium", "slow", "slower", "veryslow"]

/-- Coarsening of the nine-tier UI preset into the three NVENC buckets
(`map_ui_preset_to_nvenc`, `src/cuttel.py` lines 119-129). -/
def map_ui_preset_to_nvenc (ui_preset : String) : String :=
  let slow_group : List String := ["slow", "slower", "veryslow"]
  let medium_group : List String := ["medium"]
  let fast_group : List String := ["ultrafast", "superfast", "veryfast", "faster", "fast"]
  if ui_preset ∈ slow_group then "slow"
  else if ui_preset ∈ medium_group then "medium"
  else if ui_preset ∈ fast_group then "fast"
  else "medium"

/-- The video encoder argument list (`build_video_encode_args`,
`src/cuttel.py` lines 132-150).  The Python `ValueError` for an unknown
codec becomes `Except.error`. -/
def build_video_encode_args (vcodec : String) (quality : ℤ) (ui_preset : String) :
    Except String (List String) :=
  let args := ["-c:v", vcodec]
  if vcodec = "libx264" ∨ vcodec = "libx265" then
    let args := args ++ ["-preset", ui_preset, "-crf", toString quality]
    let args := if vcodec = "libx264" then args ++ ["-profile:v", "high"] else args
    Except.ok args
  else if vcodec = "h264_nvenc" ∨ vcodec = "hevc_nvenc" then
    let nvenc_preset := map_ui_preset_to_nvenc ui_preset
    let args := args ++ ["-preset", nvenc_preset, "-rc", "vbr", "-cq", toString quality, "-b:v", "0"]
    let args := if vcodec = "h264_nvenc" then args ++ ["-profile:v", "high"]
                else args ++ ["-tag:v", "hvc1"]
    Except.ok args
  else Except.error ("Unknown codec: " ++ vcodec)

/-- C3: the CPU codecs pass the preset and quality through unchanged as
`-preset`/`-crf`; the hardware codecs emit the coarsened preset with
`-rc vbr` and `-cq quality`; the coarsening maps the five fast tiers to
"fast", "medium" to "medium", the three slow tiers to "slow", and any
unrecognized preset to "medium". -/
theorem C3_planner (q : ℤ) (p : String) :
    build_video_encode_args "libx264" q p
      = Except.ok ["-c:v", "libx264", "-preset", p, "-crf", toString q, "-profile:v", "high"]
    ∧ build_video_encode_args "libx265" q p
      = Except.ok ["-c:v", "libx265", "-preset", p, "-crf", toString q]
    ∧ build_video_encode_args "h264_nvenc" q p
      = Except.ok ["-c:v", "h264_nvenc", "-preset", map_ui_preset_to_nvenc p,
          "-rc", "vbr", "-cq", toString q, "-b:v", "0", "-profile:v", "high"]
    ∧ build_video_encode_args "hevc_nvenc" q p
      = Except.ok ["-c:v", "hevc_nvenc", "-preset", map_ui_preset_to_nvenc p,
          "-rc", "vbr", "-cq", toString q, "-b:v", "0", "-tag:v", "hvc1"]
    ∧ (p ∈ ["ultrafast", "superfast", "veryfast", "faster", "fast"] →
        map_ui_preset_to_nvenc p = "fast")
    ∧ (p = "medium" → map_ui_preset_to_nvenc p = "medium")
    ∧ (p ∈ ["slow", "slower", "veryslow"] → map_ui_preset_to_nvenc p = "slow")
    ∧ (p ∉ PRESETS → map_ui_preset_to_nvenc p = "medium") := by
  refine ⟨?_, ?_, ?_, ?_, ?_, ?_, ?_, ?_⟩
  · simp [build_video_encode_args]
  · simp [build_video_encode_args]
  · simp [build_video_encode_args]
  · simp [build_video_encode_args]
  · intro h
    fin_cases h <;> rfl
  · intro h
    subst h
    rfl
  · intro h
    fin_cases h <;> rfl
  · intro h
    have h1 : p ∉ ["slow", "slower", "veryslow"] := fun hm => h (by fin_cases hm <;> decide)
    have h2 : p ∉ (["medium"] : List String) := fun hm => h (by fin_cases hm <;> decide)
    have h3 : p ∉ ["ultrafast", "superfast", "veryfast", "faster", "fast"] :=
      fun hm => h (by fin_cases hm <;> decide)
    simp [map_ui_preset_to_nvenc, h1, h2, h3]

/-- Witness for C3 at `q = 23`, `p = "veryslow"` plus the unrecognized
preset `"turbo"`. -/
theorem C3_planner_witness :
    map_ui_preset_to_nvenc "veryslow" = "slow"
    ∧ map_ui_preset_to_nvenc "turbo" = "medium" :=
  ⟨(C3_planner 23 "veryslow").2.2.2.2.2.2.1 (by decide),
   (C3_planner 23 "turbo").2.2.2.2.2.2.2 (by decide)⟩

/-- Model of the Python truthiness test `if not dur:` on an optional
float: `None` and `0.0` are falsy. -/
def pyTruthyQ : Option ℚ → Bool
  | none => false
  | some x => x ≠ 0

/-- The container-level duration parse (`src/cuttel.py` lines 87-93):
the `format.duration` field, when present and neither null nor empty, is
parsed as a float; a parse failure leaves `None`. -/
def fmt_dur? (fd : Option String) : Option ℚ :=
  match fd with
  | some s => if s ≠ "" then pyFloat? s.data else none
  | none => none

/-- The per-stream fallback (`src/cuttel.py` lines 96-103): the maximum
over all parseable, truthy per-stream duration strings, starting at 0. -/
def max_stream_dur (sds : List (Option String)) : ℚ :=
  sds.foldl (fun mx sd =>
    match sd with
    | some s =>
      if s ≠ "" then
        match pyFloat? s.data with
        | some x => max mx x
        | none => mx
      else mx
    | none => mx) 0

/-- Duration resolution (`ffprobe_duration_seconds`, `src/cuttel.py`
lines 84-108), over the probe fields it inspects: the format-level
duration string (absent/null collapsed to `none`) and the per-stream
duration strings.  The Python `RuntimeError` becomes `Except.error`. -/
def ffprobe_duration_seconds (path : String) (fd : Option String)
    (sds : List (Option String)) : Except String ℚ :=
  let dur := fmt_dur? fd
  let dur := if pyTruthyQ dur then dur
             else
               let mx := max_stream_dur sds
               if 0 < mx then some mx else none
  if pyTruthyQ dur then Except.ok (dur.getD 0)
  else Except.error ("Could not read duration for:\n" ++ path)

/-- C7 counterexample: a container duration field of `"-1"` parses, is
truthy, and is returned as-is, so the probe returns a non-positive
duration, refuting the claim that it never does; and a container
duration of `"0"`, although present and parsing as a number, is not
returned — the zero value falls through to the (empty) stream fallback
and raises instead. -/
theorem C7_cex :
    ffprobe_duration_seconds "clip.mp4" (some "-1") [] = Except.ok (-1)
    ∧ (-1 : ℚ) ≤ 0
    ∧ ffprobe_duration_seconds "clip.mp4" (some "0") []
        = Except.error ("Could not read duration for:\nclip.mp4") := by
  refine ⟨?_, by norm_num, ?_⟩
  · have hd : ("-1" : String).data = ['-', '1'] := rfl
    simp [ffprobe_duration_seconds, fmt_dur?, pyFloat?, hd, pyStrip, dropWs, isWs,
      digitsToNat, pyTruthyQ, max_stream_dur]
  · have hd : ("0" : String).data = ['0'] := rfl
    simp [ffprobe_duration_seconds, fmt_dur?, pyFloat?, hd, pyStrip, dropWs, isWs,
      digitsToNat, pyTruthyQ, max_stream_dur]

/-- C7 amended: the probe returns the container duration whenever it
parses as a nonzero number (so a negative container duration is passed
through); when the container field is absent, empty, unparseable or
zero, it returns the maximum per-stream duration if that is positive and
otherwise fails with an error naming the path; it never returns zero. -/
theorem C7_probe (path : String) (fd : Option String) (sds : List (Option String)) :
    (∀ x, fmt_dur? fd = some x → x ≠ 0 →
        ffprobe_duration_seconds path fd sds = Except.ok x)
    ∧ (pyTruthyQ (fmt_dur? fd) = false →
        (0 < max_stream_dur sds →
          ffprobe_duration_seconds path fd sds = Except.ok (max_stream_dur sds))
        ∧ (max_stream_dur sds ≤ 0 →
          ffprobe_duration_seconds path fd sds
            = Except.error ("Could not read duration for:\n" ++ path)))
    ∧ (∀ d, ffprobe_duration_seconds path fd sds = Except.ok d → d ≠ 0) := by
  refine ⟨?_, ?_, ?_⟩
  · intro x hx hx0
    simp only [ffprobe_duration_seconds, hx]
    have ht : pyTruthyQ (some x) = true := by simp [pyTruthyQ, hx0]
    simp [ht]
  · intro hfalse
    constructor
    · intro hmx
      simp only [ffprobe_duration_seconds, hfalse]
      have ht : pyTruthyQ (some (max_stream_dur sds)) = true := by
        simp [pyTruthyQ]
        exact ne_of_gt hmx
      simp [ht, hmx]
    · intro hmx
      have hnot : ¬ (0 < max_stream_dur sds) := not_lt.mpr hmx
      simp only [ffprobe_duration_seconds, hfalse, Bool.false_eq_true, if_false, hnot]
      simp [pyTruthyQ]
  · intro d hd
    simp only [ffprobe_duration_seconds] at hd
    generalize (if pyTruthyQ (fmt_dur? fd) then fmt_dur? fd
        else if 0 < max_stream_dur sds then some (max_stream_dur sds) else none) = D at hd
    split at hd
    case isTrue ht =>
      cases D with
      | none => simp [pyTruthyQ] at ht
      | some v =>
        simp only [pyTruthyQ, decide_eq_true_eq] at ht
        simp only [Option.getD_some, Except.ok.injEq] at hd
        subst hd
        exact ht
    case isFalse ht => exact absurd hd (by simp)

/-- Witness for C7 amended at a parseable container duration `"2"`. -/
theorem C7_probe_witness :
    ffprobe_duration_seconds "p" (some "2") [] = Except.ok 2 :=
  (C7_probe "p" (some "2") []).1 2
    (by
      have hd : ("2" : String).data = ['2'] := rfl
      simp [fmt_dur?, pyFloat?, hd, pyStrip, dropWs, isWs, digitsToNat])
    (by norm_num)

/-- Parse of an `out_time` value `H:MM:SS.fraction`
(`src/cuttel.py` lines 1129-1137): split on `:`, require exactly three
parts, `int` the first two and `float` the last; any failure is caught
and leaves the elapsed value untouched. -/
def parseOutTime? (v : List Char) : Option ℚ :=
  let ps := splitSep ':' v
  if ps.length = 3 then
    match pyInt? (ps.getD 0 []), pyInt? (ps.getD 1 []), pyFloat? (ps.getD 2 []) with
    | some hh, some mm, some ss => some ((hh : ℚ) * 3600 + (mm : ℚ) * 60 + ss)
    | _, _, _ => none
  else none

/-- The mutable state of the progress-reading loop: the current elapsed
seconds and the last seen speed label. -/
structure LoopState where
  cur_sec : ℚ
  speed : List Char
  deriving DecidableEq, Repr

/-- One iteration of the progress loop body (`src/cuttel.py` lines
1112-1146): strip the line, skip it when empty, split at the first `=`;
`out_time_ms` is microseconds divided by 1e6, `out_time` is
`H:MM:SS.fraction`, `speed` stores the label, other keys and lines
without `=` leave the state unchanged; parse failures are swallowed. -/
def processLine (st : LoopState) (line : String) : LoopState :=
  let l := pyStrip line.data
  if l.isEmpty then st
  else
    match splitFirst '=' l with
    | (_, none) => st
    | (k0, some v0) =>
      let k := pyStrip k0
      let v := pyStrip v0
      if k = ("out_time_ms").data then
        match pyFloat? v with
        | some x => { st with cur_sec := x / 1000000 }
        | none => st
      else if k = ("out_time").data then
        match parseOutTime? v with
        | some x => { st with cur_sec := x }
        | none => st
      else if k = ("speed").data then { st with speed := v }
      else st

/-- The elapsed-time value a single progress line carries, when its key
is `out_time_ms` or `out_time` and its value parses; mirrors the branch
structure of `processLine`. -/
def timeOfLine? (line : String) : Option ℚ :=
  let l := pyStrip line.data
  if l.isEmpty then none
  else
    match splitFirst '=' l with
    | (_, none) => none
    | (k0, some v0) =>
      let k := pyStrip k0
      let v := pyStrip v0
      if k = ("out_time_ms").data then (pyFloat? v).map (fun x => x / 1000000)
      else if k = ("out_time").data then parseOutTime? v
      else none

theorem processLine_cur_sec (st : LoopState) (line : String) :
    (processLine st line).cur_sec = (timeOfLine? line).getD st.cur_sec := by
  simp only [processLine, timeOfLine?]
  split
  · rfl
  · split
    · rfl
    · split
      · split <;> simp_all
      · split
        · split <;> simp_all
        · split <;> rfl

/-- The last successfully parsed elapsed-time value in a stream of
progress lines. -/
def lastTime? (lines : List String) : Option ℚ :=
  (lines.filterMap timeOfLine?).getLast?

/-- C6 counterexample: a stream carrying `out_time_ms=500000` followed by
a parseable `out_time=0:00:02.0` line ends with elapsed `2`, not the
`1/2` the microsecond key produced: the later `out_time` line overrides
the value parsed from `out_time_ms`. -/
theorem C6_cex :
    (List.foldl processLine { cur_sec := 0, speed := [] }
        ["out_time_ms=500000", "out_time=0:00:02.0"]).cur_sec = 2
    ∧ (2 : ℚ) ≠ 500000 / 1000000 := by
  constructor
  · have h1 : ("out_time_ms=500000" : String).data
        = ['o', 'u', 't', '_', 't', 'i', 'm', 'e', '_', 'm', 's', '=',
           '5', '0', '0', '0', '0', '0'] := rfl
    have h2 : ("out_time=0:00:02.0" : String).data
        = ['o', 'u', 't', '_', 't', 'i', 'm', 'e', '=',
           '0', ':', '0', '0', ':', '0', '2', '.', '0'] := rfl
    simp [processLine, h1, h2, pyStrip, dropWs, isWs, splitFirst, splitSep,
      pyFloat?, pyInt?, parseOutTime?, digitsToNat]
  · norm_num

/-- C6 amended: each line carrying a parseable `out_time_ms`
(microseconds) or `out_time` (`H:MM:SS.fraction`) value sets the elapsed
time, so after any stream the elapsed value is the one carried by the
last parseable time line (or the initial value when there is none); a
later parseable `out_time` line therefore overrides an earlier
`out_time_ms` value, and `out_time` acts as a fallback only against
absent or unparseable `out_time_ms` lines. -/
theorem C6_last_time (lines : List String) (st : LoopState) :
    (List.foldl processLine st lines).cur_sec = (lastTime? lines).getD st.cur_sec := by
  induction lines generalizing st with
  | nil => rfl
  | cons l ls ih =>
    rw [List.foldl_cons, ih]
    unfold lastTime?
    rw [List.filterMap_cons]
    cases h : timeOfLine? l with
    | none =>
      rw [processLine_cur_sec, h]
      rfl
    | some t =>
      rw [processLine_cur_sec, h]
      cases hx : ls.filterMap timeOfLine? with
      | nil => simp [lastTime?, hx]
      | cons y ys =>
        have hne : (y :: ys) ≠ [] := by simp
        obtain ⟨z, hz⟩ := Option.isSome_iff_exists.mp (List.getLast?_isSome.mpr hne)
        simp [lastTime?, hx, hz]

/-- C10: a line whose key is `out_time_ms` or `out_time` but whose value
fails to parse leaves the elapsed value unchanged (never resets it), a
line with any other key leaves it unchanged too, and the elapsed value
changes only to a successfully parsed time value. -/
theorem C10_parse_safety (st : LoopState) (line : String) :
    (timeOfLine? line = none → (processLine st line).cur_sec = st.cur_sec)
    ∧ (∀ t, timeOfLine? line = some t → (processLine st line).cur_sec = t) := by
  constructor
  · intro h
    rw [processLine_cur_sec, h]
    rfl
  · intro t h
    rw [processLine_cur_sec, h]
    rfl

/-- Witness for C10 on the unparseable line `out_time_ms=xx` from elapsed
value `7`. -/
theorem C10_parse_safety_witness :
    (processLine { cur_sec := 7, speed := [] } "out_time_ms=xx").cur_sec = 7 :=
  (C10_parse_safety { cur_sec := 7, speed := [] } "out_time_ms=xx").1
    (by
      have h1 : ("out_time_ms=xx" : String).data
          = ['o', 'u', 't', '_', 't', 'i', 'm', 'e', '_', 'm', 's', '=', 'x', 'x'] := rfl
      simp [timeOfLine?, h1, pyStrip, dropWs, isWs, splitFirst, pyFloat?, digitsToNat])

/-- An observable event of one encode run, serializing the interleaving
of the progress-reading worker (`src/cuttel.py` lines 1108-1146) with
the GUI thread's `App.cancel` (lines 958-968): a progress line arriving
on stdout, or the cancellation flag being set. -/
inductive RunEvent where
  | line (s : String)
  | cancelRequest
  deriving DecidableEq, Repr

/-- Terminal outcome of a run (`src/cuttel.py` lines 1148-1168): the
post-loop cancellation check raises `Cancelled` before the exit code is
ever consulted, a nonzero exit code raises failure, and only then is
success reported. -/
inductive Outcome where
  | Succeeded
  | Cancelled
  | Failed (code : ℤ)
  deriving DecidableEq, Repr

/-- State of the run worker: the write-once cancellation flag, the
progress-loop state, and the elapsed values handed to `set_progress`
(the 150 ms wall-clock throttle is presentation only and is modelled as
always emitting). -/
structure WorkerState where
  cancelled : Bool
  st : LoopState
  emitted : List ℚ
  deriving DecidableEq, Repr

/-- Whether a stripped line is nonempty and contains `=`, i.e. takes the
key/value branch that calls `set_progress`. -/
def isKV (line : String) : Bool :=
  let l := pyStrip line.data
  !l.isEmpty && (splitFirst '=' l).2.isSome

/-- One step of the serialized run: a cancel request sets the flag; once
the flag is set the loop stops consuming lines (`src/cuttel.py` lines
1113-1114); otherwise the line is processed and, on the key/value
branch, the current elapsed value is emitted. -/
def stepEvent (w : WorkerState) (e : RunEvent) : WorkerState :=
  match e with
  | RunEvent.cancelRequest => { w with cancelled := true }
  | RunEvent.line s =>
    if w.cancelled then w
    else
      let st' := processLine w.st s
      if isKV s then { w with st := st', emitted := w.emitted ++ [st'.cur_sec] }
      else { w with st := st' }

/-- The worker's initial state (`cur_sec = 0.0`, `speed = ""`). -/
def initWorker : WorkerState :=
  { cancelled := false, st := { cur_sec := 0, speed := [] }, emitted := [] }

/-- A full run (`src/cuttel.py` lines 1108-1168): fold the events, then
settle the outcome; on a set cancellation flag the run raises
`Cancelled` without consulting the exit code, on a nonzero exit code it
fails, and on success it emits one final sample at the total output
duration (line 1164). -/
def runWorker (total : ℚ) (events : List RunEvent) (exitCode : ℤ) :
    Outcome × List ℚ :=
  let w := List.foldl stepEvent initWorker events
  if w.cancelled then (Outcome.Cancelled, w.emitted)
  else if exitCode ≠ 0 then (Outcome.Failed exitCode, w.emitted)
  else (Outcome.Succeeded, w.emitted ++ [total])

theorem stepEvent_cancelled_mono (w : WorkerState) (e : RunEvent)
    (h : w.cancelled = true) : (stepEvent w e).cancelled = true := by
  cases e with
  | cancelRequest => rfl
  | line s => simp [stepEvent, h]

theorem foldl_cancelled_of_true (events : List RunEvent) (w : WorkerState)
    (h : w.cancelled = true) :
    (List.foldl stepEvent w events).cancelled = true := by
  induction events generalizing w with
  | nil => exact h
  | cons e es ih => exact ih _ (stepEvent_cancelled_mono w e h)

theorem foldl_cancelled_of_mem (events : List RunEvent) (w : WorkerState)
    (h : RunEvent.cancelRequest ∈ events) :
    (List.foldl stepEvent w events).cancelled = true := by
  induction events generalizing w with
  | nil => cases h
  | cons e es ih =>
    rcases List.mem_cons.mp h with he | he
    · subst he
      exact foldl_cancelled_of_true es _ rfl
    · exact ih _ he

/-- C4: a run whose event trace contains a cancellation request before
the process-exit decision ends in `Cancelled` and is never reported as
`Succeeded`, for every exit code including `0`. -/
theorem C4_cancel_wins (total : ℚ) (events : List RunEvent) (exitCode : ℤ)
    (h : RunEvent.cancelRequest ∈ events) :
    (runWorker total events exitCode).1 = Outcome.Cancelled
    ∧ (runWorker total events exitCode).1 ≠ Outcome.Succeeded := by
  have hc := foldl_cancelled_of_mem events initWorker h
  constructor
  · simp [runWorker, hc]
  · simp [runWorker, hc]

/-- Witness for C4: cancellation during the progress stream, with the
process later exiting with code `0`. -/
theorem C4_cancel_wins_witness :
    (runWorker 3 [RunEvent.line "out_time_ms=0", RunEvent.cancelRequest] 0).1
        = Outcome.Cancelled
    ∧ (runWorker 3 [RunEvent.line "out_time_ms=0", RunEvent.cancelRequest] 0).1
        ≠ Outcome.Succeeded :=
  C4_cancel_wins 3 [RunEvent.line "out_time_ms=0", RunEvent.cancelRequest] 0
    (by simp)

/-- C9: the synthetic stream `out_time_ms = 0, 500000, 1500000, 3000000`
for a `total = 3.0` run normalizes to elapsed values `0, 1/2, 3/2, 3`,
strictly increasing, with the last sample equal to the total, and the
successful run appends the final 100% sample at the total. -/
theorem C9_progress_scenario :
    runWorker 3
        [RunEvent.line "out_time_ms=0", RunEvent.line "out_time_ms=500000",
         RunEvent.line "out_time_ms=1500000", RunEvent.line "out_time_ms=3000000"] 0
      = (Outcome.Succeeded, [0, 1/2, 3/2, 3, 3])
    ∧ List.Chain' (fun a b => a < b) [(0 : ℚ), 1/2, 3/2, 3] := by
  constructor
  · have h1 : ("out_time_ms=0" : String).data
        = ['o', 'u', 't', '_', 't', 'i', 'm', 'e', '_', 'm', 's', '=', '0'] := rfl
    have h2 : ("out_time_ms=500000" : String).data
        = ['o', 'u', 't', '_', 't', 'i', 'm', 'e', '_', 'm', 's', '=',
           '5', '0', '0', '0', '0', '0'] := rfl
    have h3 : ("out_time_ms=1500000" : String).data
        = ['o', 'u', 't', '_', 't', 'i', 'm', 'e', '_', 'm', 's', '=',
           '1', '5', '0', '0', '0', '0', '0'] := rfl
    have h4 : ("out_time_ms=3000000" : String).data
        = ['o', 'u', 't', '_', 't', 'i', 'm', 'e', '_', 'm', 's', '=',
           '3', '0', '0', '0', '0', '0', '0'] := rfl
    simp [runWorker, stepEvent, initWorker, isKV, processLine, h1, h2, h3, h4,
      pyStrip, dropWs, isWs, splitFirst, pyFloat?, digitsToNat]
    norm_num
  · refine List.Chain'.cons (by norm_num) (List.Chain'.cons (by norm_num)
      (List.Chain'.cons (by norm_num) (List.chain'_singleton 3)))

/-- The per-clip video normalization filter string
(`src/cuttel.py` lines 160-167). -/
def video_filter (fps width height i : ℕ) : String :=
  "[" ++ toString i ++ ":v]scale=" ++ toString width ++ ":" ++ toString height ++
  ":force_original_aspect_ratio=decrease,pad=" ++ toString width ++ ":" ++
  toString height ++ ":(ow-iw)/2:(oh-ih)/2,fps=" ++ toString fps ++
  ",format=yuv420p,setsar=1[v" ++ toString i ++ "]"

/-- The per-clip audio filter string (`src/cuttel.py` lines 169-173):
resample a present track, otherwise synthesize silence trimmed to the
clip duration.  Rational durations print via `toString ℚ` in place of
Python float formatting. -/
def audio_filter (durations : List ℚ) (has_audio : List Bool) (i : ℕ) : String :=
  if has_audio.getD i false then
    "[" ++ toString i ++ ":a]aresample=48000[a" ++ toString i ++ "]"
  else
    "anullsrc=r=48000:cl=stereo,atrim=0:" ++ toString (durations.getD i 0) ++
    ",asetpts=N/SR/TB[a" ++ toString i ++ "]"

/-- One crossfade fold step (`src/cuttel.py` lines 181-202): appends the
`xfade` part at `fold_offset` and the `acrossfade` part, advancing the
running video/audio labels. -/
def xfade_step (durations : List ℚ) (transition_name : String) (tdur : ℚ)
    (acc : List String × String × String) (k : ℕ) : List String × String × String :=
  let v_prev := acc.2.1
  let a_prev := acc.2.2
  let v_out := "vx" ++ toString (k + 1)
  let a_out := "ax" ++ toString (k + 1)
  let vpart :=
    "[" ++ v_prev ++ "][v" ++ toString (k + 1) ++ "]xfade=transition=" ++
    transition_name ++ ":duration=" ++ toString tdur ++ ":offset=" ++
    toString (fold_offset durations tdur k) ++ "[" ++ v_out ++ "]"
  let apart :=
    "[" ++ a_prev ++ "][a" ++ toString (k + 1) ++ "]acrossfade=d=" ++
    toString tdur ++ ":c1=tri:c2=tri[" ++ a_out ++ "]"
  (acc.1 ++ [vpart, apart], v_out, a_out)

/-- The filter-graph builder (`build_filter_graph`, `src/cuttel.py`
lines 153-204): the only validation it performs is rejecting an empty
input list (Python `ValueError("No inputs")`, modelled as
`Except.error`); it then emits per-clip normalization parts and, for
`n ≥ 2`, left-folds the crossfade steps, returning the joined graph and
the terminal video/audio labels. -/
def build_filter_graph (inputs : List String) (durations : List ℚ)
    (has_audio : List Bool) (transition_name : String) (tdur : ℚ)
    (fps width height : ℕ) : Except String (String × String × String) :=
  let n := inputs.length
  if n < 1 then Except.error ("No inputs")
  else
    let parts := (List.range n).flatMap fun i =>
      [video_filter fps width height i, audio_filter durations has_audio i]
    if n = 1 then
      Except.ok (String.intercalate (";") parts, "[v0]", "[a0]")
    else
      let folded := List.foldl (xfade_step durations transition_name tdur)
        ([], "v0", "a0") (List.range (n - 1))
      Except.ok (String.intercalate (";") (parts ++ folded.1),
        "[" ++ folded.2.1 ++ "]", "[" ++ folded.2.2 ++ "]")

/-- The transition-duration validation performed by the caller
(`App.start`, `src/cuttel.py` lines 990-996): parse the entry text as a
float and reject values outside `(0, 5]`; both the parse failure and the
range failure surface as the same warning, modelled as `none`. -/
def start_parse_tdur (s : String) : Option ℚ :=
  match pyFloat? (pyStrip s.data) with
  | none => none
  | some t => if t ≤ 0 ∨ 5 < t then none else some t

/-- C5 counterexample: the builder accepts two clips with a transition
duration of `10`, far outside `(0, 5]`, returning a graph instead of an
error — the range check does not live in the builder. -/
theorem C5_cex :
    (∃ v, build_filter_graph ["a", "b"] [1, 1] [true, true] "fade" 10 30 1920 1080
        = Except.ok v)
    ∧ ¬ ((0 : ℚ) < 10 ∧ (10 : ℚ) ≤ 5) := by
  constructor
  · exact ⟨_, rfl⟩
  · norm_num

/-- C5 amended: the builder itself fails exactly when the clip list is
empty (and then with the message "No inputs"); the `(0, 5]` bound on the
transition duration is enforced by the caller `App.start`, whose
validator accepts exactly the values in `(0, 5]`. -/
theorem C5_builder_validation (inputs : List String) (durations : List ℚ)
    (has_audio : List Bool) (transition_name : String) (tdur : ℚ)
    (fps width height : ℕ) (s : String) :
    ((∃ v, build_filter_graph inputs durations has_audio transition_name tdur
        fps width height = Except.ok v) ↔ inputs ≠ [])
    ∧ (∀ e, build_filter_graph inputs durations has_audio transition_name tdur
        fps width height = Except.error e → inputs = [] ∧ e = "No inputs")
    ∧ (∀ t, start_parse_tdur s = some t → 0 < t ∧ t ≤ 5) := by
  refine ⟨?_, ?_, ?_⟩
  · cases inputs with
    | nil => simp [build_filter_graph]
    | cons a as =>
      constructor
      · intro _
        simp
      · intro _
        cases hb : build_filter_graph (a :: as) durations has_audio transition_name
            tdur fps width height with
        | error e =>
          exfalso
          simp only [build_filter_graph] at hb
          rw [if_neg (by simp)] at hb
          split at hb <;> cases hb
        | ok v => exact ⟨v, rfl⟩
  · intro e he
    by_cases h0 : inputs = []
    · subst h0
      simp [build_filter_graph] at he
      exact ⟨rfl, he.symm⟩
    · exfalso
      obtain ⟨a, as, rfl⟩ := List.exists_cons_of_ne_nil h0
      by_cases h1 : (a :: as).length = 1
      · simp [build_filter_graph, h1] at he
      · simp only [build_filter_graph] at he
        rw [if_neg (by simp), if_neg h1] at he
        cases he
  · intro t ht
    simp only [start_parse_tdur] at ht
    split at ht
    · cases ht
    · split at ht
      · cases ht
      · rename_i hrange
        push_neg at hrange
        cases ht
        exact hrange

/-- Witness for C5 amended: a two-clip list builds, and the caller's
validator accepts `0.5`. -/
theorem C5_builder_validation_witness :
    (∃ v, build_filter_graph ["a", "b"] [1, 1] [true, true] "fade" (1/2) 30 1920 1080
        = Except.ok v)
    ∧ (0 : ℚ) < 1/2 ∧ (1/2 : ℚ) ≤ 5 := by
  have h := C5_builder_validation ["a", "b"] [1, 1] [true, true] "fade" (1/2)
    30 1920 1080 "0.5"
  refine ⟨h.1.mpr (by simp), ?_⟩
  norm_num

end Cuttel
